import Mathlib

/-!
Shallow embedding of the session lifecycle and stream-relay engine of
`src/api.py` (class `LiveSessionManager` and the `/ws` websocket endpoint).

Modelling conventions:
* The asyncio queue `self.audio_queue` is modelled by `GenQueue`: a `maxsize`
  (0 = unbounded, as for `asyncio.Queue()` with no argument) and the list of
  queued entries.  An entry is `some chunk` for an audio chunk and `none` for
  the `None` end-of-stream sentinel, exactly as the Python code stores them.
* The bound client websocket `self.websocket` is modelled by
  `websocket : Option Bool`: `none` when no transport is bound, `some c` when
  one is bound and `c` records whether `client_state == CONNECTED`.
* The task handle `self.session_handler_task` is modelled by
  `Option TaskState`: `none` when the field is `None`, `some .running` /
  `some .done` for a live / finished asyncio task object.
* Frames sent over the client websocket are collected in `List Frame` results
  (`send_json` status frames and `send_bytes` binary frames).
* The single-threaded cooperative schedule is modelled at the granularity of
  atomic segments between `await` suspension points; the nondeterministic
  outcome of one run of `_handle_session_lifecycle` (which of connect /
  sender pump / receiver pump / cancellation ended it) is an explicit
  `LifecycleOutcome` parameter.  The model covers the single-bound-client
  schedule: commands arrive serialized on the bound transport, and the
  concurrent tasks are the lifecycle task, its two pumps, spawned stop
  tasks, and stop coroutines suspended at the `await` of line 308 — in
  particular a `stop_session` run is split into the segment before that
  await and the segment after it, so interleavings of a fresh
  `start_session` with a suspended stop are represented.
-/

/-- Status/data frames written to the client websocket (`send_json` with a
`status` field, transcripts with a `type` field, and `send_bytes`). -/
inductive Frame
  | info (msg : String)
  | error (msg : String)
  | warning (msg : String)
  | transcript (kind : String) (data : String)
  | binary (data : List Nat)
  deriving DecidableEq, Repr

/-- Model of `asyncio.Queue`: `maxsize = 0` means unbounded (the default of
`asyncio.Queue()`); `items` holds `some chunk` entries and the `none`
end-of-stream sentinel in FIFO order. -/
structure GenQueue where
  maxsize : Nat
  items : List (Option (List Nat))
  deriving DecidableEq, Repr

/-- Model of `asyncio.Queue.put_nowait`: raises `QueueFull` (the `Except.error`
case) iff the queue is bounded (`0 < maxsize`) and already holds at least
`maxsize` entries; otherwise appends the item. -/
def GenQueue.put_nowait (q : GenQueue) (item : Option (List Nat)) :
    Except Unit GenQueue :=
  if 0 < q.maxsize ∧ q.maxsize ≤ q.items.length then Except.error ()
  else Except.ok { q with items := q.items ++ [item] }

/-- Status of the asyncio task object held in `session_handler_task`. -/
inductive TaskState
  | running
  | done
  deriving DecidableEq, Repr

/-- Mutable fields of `LiveSessionManager` (src/api.py lines 36-40).
`websocket` is `none` when unbound, `some c` when bound with connectedness
`c`. -/
structure LiveSessionManager where
  live_session_active : Bool
  audio_queue : Option GenQueue
  session_handler_task : Option TaskState
  websocket : Option Bool
  deriving DecidableEq, Repr

/-- Initial manager state built by `LiveSessionManager.__init__`
(src/api.py lines 36-40): inactive, no queue, no task, no transport. -/
def initManager : LiveSessionManager :=
  { live_session_active := false
    audio_queue := none
    session_handler_task := none
    websocket := none }

/-- Result of `start_session`: the updated manager plus the frames sent to the
requesting websocket. -/
structure StartResult where
  state : LiveSessionManager
  frames : List Frame
  deriving DecidableEq, Repr

/-- Embedding of `LiveSessionManager.start_session` (src/api.py lines 46-58).
`ws_connected` is `websocket.client_state == CONNECTED` for the argument
websocket.  When a session is already active it only sends an informational
frame (if connected) and returns; otherwise it binds the websocket, allocates
a fresh unbounded queue, sets the active flag and records the handle of the
freshly created lifecycle task. -/
def start_session (m : LiveSessionManager) (ws_connected : Bool) : StartResult :=
  if m.live_session_active then
    { state := m
      frames := if ws_connected then [Frame.info "Session already active."] else [] }
  else
    { state :=
        { m with
          websocket := some ws_connected
          audio_queue := some { maxsize := 0, items := [] }
          live_session_active := true
          session_handler_task := some TaskState.running }
      frames := [] }

/-- Result of `stop_session`: the updated manager, the frames sent to the
client, and whether the `asyncio.QueueFull` handler (src/api.py lines
293-294) was entered while enqueuing the `None` sentinel. -/
structure StopResult where
  state : LiveSessionManager
  frames : List Frame
  queueFullHit : Bool
  deriving DecidableEq, Repr

/-- Embedding of `LiveSessionManager.stop_session` (src/api.py lines 272-326).
Guard (line 274): return immediately when inactive and the task field is
`None`.  Otherwise: clear the active flag (line 286), `put_nowait(None)` into
the queue if present, catching `QueueFull` (lines 289-296), cancel and await
the handler task (lines 300-313, after which the task object is finished),
null out `audio_queue` and `session_handler_task` (lines 316-317), and send
the final stopped frame when `notify_client` holds and the bound websocket is
still connected (lines 319-324). -/
def stop_session (m : LiveSessionManager) (notify_client : Bool) : StopResult :=
  if m.live_session_active = false ∧ m.session_handler_task = none then
    { state := m, frames := [], queueFullHit := false }
  else
    let m1 := { m with live_session_active := false }
    let putResult : Option GenQueue × Bool :=
      match m1.audio_queue with
      | none => (none, false)
      | some q =>
        match q.put_nowait none with
        | Except.ok q2 => (some q2, false)
        | Except.error _ => (some q, true)
    let m2 := { m1 with audio_queue := putResult.1 }
    let m3 := { m2 with audio_queue := none, session_handler_task := none }
    { state := m3
      frames :=
        if notify_client ∧ m.websocket = some true then
          [Frame.info "Live session stopped."]
        else []
      queueFullHit := putResult.2 }

/-- Embedding of `LiveSessionManager.handle_audio_chunk` (src/api.py lines
262-270).  When the session is inactive or the queue is `None`, the chunk is
dropped and a warning frame is sent to the connected client; otherwise the
chunk is appended to the queue (`await put` on an unbounded queue always
succeeds). -/
def handle_audio_chunk (m : LiveSessionManager) (chunk : List Nat) :
    LiveSessionManager × List Frame :=
  if m.live_session_active = false ∨ m.audio_queue = none then
    (m,
      if m.websocket = some true then
        [Frame.warning "Session not active. Cannot process audio."]
      else [])
  else
    match m.audio_queue with
    | some q => ({ m with audio_queue := some { q with items := q.items ++ [some chunk] } }, [])
    | none => (m, [])

/-- Embedding of the binary branch of `websocket_endpoint` (src/api.py lines
369-374): while `live_session_active` the chunk is handed to
`handle_audio_chunk`; otherwise it is discarded with only a server-side log
(line 374) and nothing is written to the client. -/
def websocket_endpoint_binary (m : LiveSessionManager) (chunk : List Nat) :
    LiveSessionManager × List Frame :=
  if m.live_session_active then handle_audio_chunk m chunk
  else (m, [])

/-- Result of the admission check of `websocket_endpoint`: the manager state,
the frames written to the NEW connection, the close code applied to it
(if any), and whether it was accepted as the bound transport. -/
structure AdmissionResult where
  state : LiveSessionManager
  framesToNew : List Frame
  closeCode : Option Nat
  accepted : Bool
  deriving DecidableEq, Repr

/-- Embedding of the admission check of `websocket_endpoint` (src/api.py
lines 337-343): if a websocket is already bound and connected, the new
connection gets an error frame and is closed with code 1008 and the manager
is untouched; otherwise the new connection becomes the bound transport. -/
def websocket_endpoint_admission (m : LiveSessionManager) : AdmissionResult :=
  if m.websocket = some true then
    { state := m
      framesToNew := [Frame.error "A session is already active with another client."]
      closeCode := some 1008
      accepted := false }
  else
    { state := { m with websocket := some true }
      framesToNew := []
      closeCode := none
      accepted := true }

/-- Outcome of one run of `_handle_session_lifecycle`, abstracting the
nondeterministic environment: which of the five exit paths terminated the
run (src/api.py lines 71-139). -/
inductive LifecycleOutcome
  | connectError (msg : String)
  | cancelled
  | senderError (msg : String)
  | receiverError (msg : String)
  | pumpExitNormal
  deriving DecidableEq, Repr

/-- Embedding of the error exit of `_send_audio_chunks` (src/api.py lines
169-175 and 179-182): a failed `session.send` clears the active flag and
re-raises; the sender pump itself writes nothing to the client websocket. -/
def send_audio_chunks_errorExit (m : LiveSessionManager) :
    LiveSessionManager × List Frame :=
  ({ m with live_session_active := false }, [])

/-- Embedding of the error exit of `_receive_genai_data` (src/api.py lines
248-257): a failure in the receive loop clears the active flag, best-effort
sends a critical-error frame to the connected client, and re-raises. -/
def receive_genai_data_errorExit (m : LiveSessionManager) (msg : String) :
    LiveSessionManager × List Frame :=
  ({ m with live_session_active := false },
    if m.websocket = some true then
      [Frame.error ("Critical error in server: " ++ msg)]
    else [])

/-- Result of one run of `_handle_session_lifecycle`: the manager state when
the coroutine returns, the frames it (and its pumps) wrote to the client,
whether the two pump tasks were ever launched (lines 79-80 run only after a
successful connect), and — when the finally block spawned a
`finally_stop_session_task` (line 137) — the `notify_client` flag it was
given. -/
structure LifecycleResult where
  state : LiveSessionManager
  frames : List Frame
  pumpsStarted : Bool
  spawnStop : Option Bool
  deriving DecidableEq, Repr

/-- Embedding of `_handle_session_lifecycle` (src/api.py lines 61-139) as a
function of the exit path.
* `connectError`: `connect` raises before the pumps start; the except block
  (lines 106-112) sends one "GenAI session error" frame to a connected
  client, and the finally block (lines 134-137), seeing the active flag
  still set, clears it and spawns `stop_session` with
  `notify_client = (websocket and connected)`.
* `cancelled` (post-connect cancellation, e.g. from `stop_session`): the
  started frame (line 77) was already sent; the `CancelledError` handler
  (line 104) adds nothing, and the finally block spawns a stop task only if
  the active flag is still set.
* `senderError` / `receiverError`: the failing pump runs its error exit
  first (clearing the active flag, the receiver also sending its own error
  frame), the exception is re-raised through `asyncio.wait` (line 93) into
  the except block, which sends the "GenAI session error" frame; the
  finally block finds the active flag already cleared and spawns nothing.
* `pumpExitNormal`: a pump finished without raising; lines 97-101 clear the
  still-set active flag without writing any frame, so the finally block
  spawns nothing. -/
def handle_session_lifecycle (m : LiveSessionManager) (out : LifecycleOutcome) :
    LifecycleResult :=
  let startedFrame : List Frame :=
    if m.websocket = some true then
      [Frame.info "Live session started. Ready for audio."]
    else []
  match out with
  | LifecycleOutcome.connectError msg =>
    { state := { m with live_session_active := false }
      frames :=
        if m.websocket = some true then
          [Frame.error ("GenAI session error: " ++ msg)]
        else []
      pumpsStarted := false
      spawnStop :=
        if m.live_session_active then some (m.websocket = some true) else none }
  | LifecycleOutcome.cancelled =>
    { state := { m with live_session_active := false }
      frames := startedFrame
      pumpsStarted := true
      spawnStop :=
        if m.live_session_active then some (m.websocket = some true) else none }
  | LifecycleOutcome.senderError msg =>
    let pumpExit := send_audio_chunks_errorExit m
    { state := pumpExit.1
      frames :=
        startedFrame ++ pumpExit.2 ++
          (if pumpExit.1.websocket = some true then
            [Frame.error ("GenAI session error: " ++ msg)]
          else [])
      pumpsStarted := true
      spawnStop := none }
  | LifecycleOutcome.receiverError msg =>
    let pumpExit := receive_genai_data_errorExit m msg
    { state := pumpExit.1
      frames :=
        startedFrame ++ pumpExit.2 ++
          (if pumpExit.1.websocket = some true then
            [Frame.error ("GenAI session error: " ++ msg)]
          else [])
      pumpsStarted := true
      spawnStop := none }
  | LifecycleOutcome.pumpExitNormal =>
    { state := { m with live_session_active := false }
      frames := startedFrame
      pumpsStarted := true
      spawnStop := none }

/-- What triggered a stop event of an active session: either the lifecycle
task terminating on its own (upstream failure, cancellation or pump
exhaustion), or the client's explicit `stop_session` command (src/api.py
lines 359-361). -/
inductive StopTrigger
  | upstream (out : LifecycleOutcome)
  | clientStop
  deriving DecidableEq, Repr

/-- Frames the client receives around one stop event of the session in state
`m`.  For an upstream-triggered stop these are the lifecycle's frames
followed by the frames of the `stop_session` spawned from its finally block
(the task object being finished by then); for an explicit stop command they
are the frames of `stop_session(notify_client=True)` (the cancelled
lifecycle run adds no frames of its own once the active flag is down). -/
def stopEventFrames (m : LiveSessionManager) : StopTrigger → List Frame
  | StopTrigger.upstream out =>
    let r := handle_session_lifecycle m out
    let afterTask := { r.state with session_handler_task := some TaskState.done }
    r.frames ++
      (match r.spawnStop with
        | some notify => (stop_session afterTask notify).frames
        | none => [])
  | StopTrigger.clientStop => (stop_session m true).frames

/-- Terminal status frames in the sense of the spec: any
`{"status":"error"}` frame, or the final `{"status":"info","message":"Live
session stopped."}` frame.  The start confirmation info frame and warnings
are not terminal. -/
def Frame.isTerminal : Frame → Bool
  | Frame.error _ => true
  | Frame.info msg => msg = "Live session stopped."
  | _ => false

/-- Number of terminal status frames in a frame trace. -/
def terminalCount (fs : List Frame) : Nat :=
  (fs.filter Frame.isTerminal).length

/-- A representative active-session state: bound connected client, fresh
unbounded queue, running lifecycle task. -/
def activeManager : LiveSessionManager :=
  { live_session_active := true
    audio_queue := some { maxsize := 0, items := [] }
    session_handler_task := some TaskState.running
    websocket := some true }

/-- Embedding of the dequeue/forward loop of `_send_audio_chunks`
(src/api.py lines 142-164) over an explicit list of queue entries, for runs
in which `session.send` does not raise.  `activeTop i` is the value the pump
reads for `self.live_session_active` at the loop head (line 145) of
iteration `i`, and `activeAfterGet i` the value it reads after the dequeue
suspension point (line 162); both oracles model the cross-task writes to the
shared flag.  The function returns the chunks forwarded to
`session.send`, in order: the loop breaks on a `none` sentinel (lines
158-160), on an observed inactive flag, or when the modelled queue input is
exhausted. -/
def send_audio_chunks_loop (activeTop activeAfterGet : Nat → Bool) :
    Nat → List (Option (List Nat)) → List (List Nat)
  | _, [] => []
  | i, item :: rest =>
    if activeTop i = false then []
    else
      match item with
      | none => []
      | some chunk =>
        if activeAfterGet i = false then []
        else chunk :: send_audio_chunks_loop activeTop activeAfterGet (i + 1) rest

/-- First segment of a `stop_session` run that reaches the `await` at
src/api.py line 308 (only possible past the guard, so when a session or a
task handle exists): lines 282-296 executed before the suspension — clear
the active flag (line 286) and `put_nowait(None)` into the queue if
present, catching `QueueFull` (the returned Bool).  The task handle is
still recorded; the stop coroutine is now suspended awaiting the task
object it read at line 308. -/
def stop_session_phase1 (m : LiveSessionManager) : LiveSessionManager × Bool :=
  let m1 := { m with live_session_active := false }
  match m1.audio_queue with
  | none => (m1, false)
  | some q =>
    match q.put_nowait none with
    | Except.ok q2 => ({ m1 with audio_queue := some q2 }, false)
    | Except.error _ => (m1, true)

/-- Second segment of a suspended `stop_session` run, executed when the
awaited task completes (src/api.py lines 316-326): unconditionally null
out `audio_queue` and `session_handler_task` — whatever they hold by now —
and send the stopped frame when `notify_client` holds and the currently
bound websocket is connected. -/
def stop_session_phase2 (m : LiveSessionManager) (notify_client : Bool) :
    LiveSessionManager × List Frame :=
  ({ m with audio_queue := none, session_handler_task := none },
    if notify_client ∧ m.websocket = some true then
      [Frame.info "Live session stopped."]
    else [])

/-- One state of the cooperative system: the manager's fields, whether a
`finally_stop_session_task` (src/api.py line 137) or
`ws_disconnect_stop_session_task` (line 390) has been spawned but not yet
run (with the `notify_client` flag it was given), and the `notify_client`
flags of the `stop_session` coroutines currently suspended at the `await`
of line 308. -/
structure Sys where
  mgr : LiveSessionManager
  pendingStop : Option Bool
  inflightStops : List Bool
  deriving DecidableEq, Repr

/-- Initial system state: the manager as built by `__init__`, no pending
and no suspended stop task. -/
def initSys : Sys :=
  { mgr := initManager, pendingStop := none, inflightStops := [] }

/-- One atomic segment of the cooperative schedule with a single bound
client (commands are serialized on the transport, while the lifecycle
task, its pumps, and spawned or suspended stop coroutines interleave with
them).  Each constructor is one maximal run between suspension points of
the corresponding source code.  A `stop_session` run is NOT atomic: when
the recorded task is still running, line 302 cancels it and line 308
suspends awaiting it, so the run splits into `stop_session_phase1` before
the await and `stop_session_phase2` after it; between the two, any other
task — including a fresh `start_session`, whose fresh-start path (lines
53-57) contains no await — may run.  When the recorded task is `None` or
already done, the `if` at line 300 skips the await and the run is atomic
through line 317 (the only remaining suspension, the notify send at lines
319-322, comes after all field updates and so does not affect state
interleaving).
* `startCmd`: a `start_session` command (src/api.py lines 356-358);
* `stopCmdAtomic` / `stopCmdBegin`: a `stop_session` command (lines
  359-361), atomic respectively suspending as described above;
* `pendingStopAtomic` / `pendingStopBegin`: a previously spawned stop task
  runs, atomic respectively suspending likewise;
* `stopResume`: a suspended stop coroutine resumes (its awaited, cancelled
  task has completed) and executes lines 316-326;
* `lifecycleEnd`: the running lifecycle task terminates with outcome `out`,
  possibly leaving a spawned stop task pending;
* `binaryFrame`: an inbound binary frame (lines 369-374);
* `disconnect`: the bound client disconnects: the endpoint's finally block
  (lines 385-394) spawns a stop task with `notify_client=False` if the
  session is active, then clears the manager's websocket. -/
inductive Step : Sys → Sys → Prop
  | startCmd (s : Sys) (c : Bool) :
      Step s { s with mgr := (start_session s.mgr c).state }
  | stopCmdAtomic (s : Sys)
      (h : s.mgr.session_handler_task ≠ some TaskState.running) :
      Step s { s with mgr := (stop_session s.mgr true).state }
  | stopCmdBegin (s : Sys)
      (h : s.mgr.session_handler_task = some TaskState.running) :
      Step s
        { s with
          mgr := (stop_session_phase1 s.mgr).1
          inflightStops := true :: s.inflightStops }
  | pendingStopAtomic (s : Sys) (b : Bool) (h : s.pendingStop = some b)
      (hrun : s.mgr.session_handler_task ≠ some TaskState.running) :
      Step s
        { s with mgr := (stop_session s.mgr b).state, pendingStop := none }
  | pendingStopBegin (s : Sys) (b : Bool) (h : s.pendingStop = some b)
      (hrun : s.mgr.session_handler_task = some TaskState.running) :
      Step s
        { mgr := (stop_session_phase1 s.mgr).1
          pendingStop := none
          inflightStops := b :: s.inflightStops }
  | stopResume (s : Sys) (b : Bool) (h : b ∈ s.inflightStops) :
      Step s
        { s with
          mgr := (stop_session_phase2 s.mgr b).1
          inflightStops := s.inflightStops.erase b }
  | lifecycleEnd (s : Sys) (out : LifecycleOutcome)
      (h : s.mgr.session_handler_task = some TaskState.running) :
      Step s
        { s with
          mgr :=
            { (handle_session_lifecycle s.mgr out).state with
              session_handler_task := some TaskState.done }
          pendingStop :=
            match (handle_session_lifecycle s.mgr out).spawnStop with
            | some notify => some notify
            | none => s.pendingStop }
  | binaryFrame (s : Sys) (chunk : List Nat) :
      Step s { s with mgr := (websocket_endpoint_binary s.mgr chunk).1 }
  | disconnect (s : Sys) :
      Step s
        { s with
          mgr := { s.mgr with websocket := none }
          pendingStop :=
            if s.mgr.live_session_active then some false else s.pendingStop }

/-- States reachable from the initial system state under the cooperative
schedule. -/
inductive Reachable : Sys → Prop
  | init : Reachable initSys
  | step {s t : Sys} : Reachable s → Step s t → Reachable t

/-- Core manager invariant maintained by every atomic segment: a non-null
audio queue implies a non-null task handle (the fields are set together at
src/api.py lines 54/57 and cleared together at lines 316-317), and every
audio queue the manager ever holds is unbounded (`maxsize = 0`, the
default of `asyncio.Queue()` at line 54).  Note that `active → task ≠
none` is NOT an invariant: a `stop_session` suspended at line 308 raced by
an interleaved `start_session` leaves `active = true` with both fields
null. -/
def mgrInv (m : LiveSessionManager) : Prop :=
  (m.audio_queue ≠ none → m.session_handler_task ≠ none) ∧
  (∀ q : GenQueue, m.audio_queue = some q → q.maxsize = 0)

theorem put_nowait_maxsize (q q2 : GenQueue) (x : Option (List Nat))
    (h : q.put_nowait x = Except.ok q2) : q2.maxsize = q.maxsize := by
  unfold GenQueue.put_nowait at h
  split at h
  · exact absurd h (by simp)
  · simp only [Except.ok.injEq] at h
    rw [← h]

theorem mgrInv_start (m : LiveSessionManager) (c : Bool) (h : mgrInv m) :
    mgrInv (start_session m c).state := by
  unfold start_session
  split
  · exact h
  · refine ⟨fun _ => by simp, fun q hq => ?_⟩
    simp only [Option.some.injEq] at hq
    rw [← hq]

theorem mgrInv_stop (m : LiveSessionManager) (b : Bool) (h : mgrInv m) :
    mgrInv (stop_session m b).state := by
  unfold stop_session
  split
  · exact h
  · refine ⟨fun hx => by simp at hx, fun q hq => by simp at hq⟩

theorem mgrInv_phase1 (m : LiveSessionManager) (h : mgrInv m) :
    mgrInv (stop_session_phase1 m).1 := by
  simp only [stop_session_phase1]
  cases hq : m.audio_queue with
  | none =>
    exact ⟨fun hx => absurd rfl hx, fun q hqq => Option.noConfusion hqq⟩
  | some q =>
    dsimp only
    cases hput : q.put_nowait none with
    | ok q2 =>
      dsimp only
      refine ⟨fun _ => h.1 (by simp [hq]), fun q3 hq3 => ?_⟩
      simp only [Option.some.injEq] at hq3
      rw [← hq3, put_nowait_maxsize q q2 none hput]
      exact h.2 q hq
    | error e =>
      dsimp only
      refine ⟨fun _ => h.1 (by simp [hq]), fun q3 hq3 => ?_⟩
      simp only [Option.some.injEq] at hq3
      rw [← hq3]
      exact h.2 q hq

theorem mgrInv_phase2 (m : LiveSessionManager) (b : Bool) :
    mgrInv (stop_session_phase2 m b).1 :=
  ⟨fun hx => absurd rfl hx, fun _ hq => Option.noConfusion hq⟩

theorem stop_session_eq_phases (m : LiveSessionManager) (b : Bool)
    (h : ¬(m.live_session_active = false ∧ m.session_handler_task = none)) :
    (stop_session m b).state = (stop_session_phase2 (stop_session_phase1 m).1 b).1 ∧
    (stop_session m b).frames = (stop_session_phase2 (stop_session_phase1 m).1 b).2 ∧
    (stop_session m b).queueFullHit = (stop_session_phase1 m).2 := by
  obtain ⟨a, qu, t, w⟩ := m
  cases qu with
  | none => simp [stop_session, stop_session_phase1, stop_session_phase2, h]
  | some q =>
    by_cases hcond : 0 < q.maxsize ∧ q.maxsize ≤ q.items.length
    · simp [stop_session, stop_session_phase1, stop_session_phase2,
        GenQueue.put_nowait, hcond, h]
    · simp [stop_session, stop_session_phase1, stop_session_phase2,
        GenQueue.put_nowait, hcond, h]

theorem handle_session_lifecycle_state_queue (m : LiveSessionManager)
    (out : LifecycleOutcome) :
    (handle_session_lifecycle m out).state.audio_queue = m.audio_queue := by
  cases out <;>
    simp [handle_session_lifecycle, send_audio_chunks_errorExit,
      receive_genai_data_errorExit]

theorem handle_session_lifecycle_state_inactive (m : LiveSessionManager)
    (out : LifecycleOutcome) :
    (handle_session_lifecycle m out).state.live_session_active = false := by
  cases out <;>
    simp [handle_session_lifecycle, send_audio_chunks_errorExit,
      receive_genai_data_errorExit]

theorem mgrInv_handle_audio_chunk (m : LiveSessionManager) (chunk : List Nat)
    (h : mgrInv m) : mgrInv (handle_audio_chunk m chunk).1 := by
  unfold handle_audio_chunk
  split
  · exact h
  · cases hq : m.audio_queue with
    | none => simpa [hq] using h
    | some q =>
      simp only [hq]
      refine ⟨fun _ => ?_, fun q2 hq2 => ?_⟩
      · exact h.1 (by simp [hq])
      · simp only [Option.some.injEq] at hq2
        rw [← hq2]
        exact h.2 q hq

theorem mgrInv_binary (m : LiveSessionManager) (chunk : List Nat)
    (h : mgrInv m) : mgrInv (websocket_endpoint_binary m chunk).1 := by
  unfold websocket_endpoint_binary
  split
  · exact mgrInv_handle_audio_chunk m chunk h
  · exact h

theorem mgrInv_step {s t : Sys} (h : mgrInv s.mgr) (hs : Step s t) :
    mgrInv t.mgr := by
  cases hs with
  | startCmd c => exact mgrInv_start _ _ h
  | stopCmdAtomic hrun => exact mgrInv_stop _ _ h
  | stopCmdBegin hrun => exact mgrInv_phase1 _ h
  | pendingStopAtomic b hb hrun => exact mgrInv_stop _ _ h
  | pendingStopBegin b hb hrun => exact mgrInv_phase1 _ h
  | stopResume b hb => exact mgrInv_phase2 s.mgr b
  | lifecycleEnd out hrun =>
      refine ⟨fun _ => by simp, fun q hq => ?_⟩
      simp only at hq
      rw [handle_session_lifecycle_state_queue] at hq
      exact h.2 q hq
  | binaryFrame chunk => exact mgrInv_binary _ _ h
  | disconnect => exact ⟨fun hq => h.1 hq, fun q hq => h.2 q hq⟩

theorem reachable_mgrInv {s : Sys} (h : Reachable s) : mgrInv s.mgr := by
  induction h with
  | init =>
      exact ⟨fun hx => by simp [initSys, initManager] at hx,
        fun q hq => by simp [initSys, initManager] at hq⟩
  | step hr hs ih => exact mgrInv_step ih hs

/-- Error status frames (`send_json` with `status = "error"`). -/
def Frame.isError : Frame → Bool
  | Frame.error _ => true
  | _ => false

/-- Error frames of a frame trace. -/
def errorFrames (fs : List Frame) : List Frame :=
  fs.filter Frame.isError

theorem isTerminal_started :
    Frame.isTerminal (Frame.info "Live session started. Ready for audio.") = false := by
  decide

theorem isTerminal_stopped :
    Frame.isTerminal (Frame.info "Live session stopped.") = true := by
  decide

theorem isTerminal_error (msg : String) :
    Frame.isTerminal (Frame.error msg) = true := rfl

theorem stop_session_noop (m : LiveSessionManager) (b : Bool)
    (h1 : m.live_session_active = false) (h2 : m.session_handler_task = none) :
    stop_session m b = { state := m, frames := [], queueFullHit := false } := by
  unfold stop_session
  rw [if_pos ⟨h1, h2⟩]

theorem stop_session_active_false (m : LiveSessionManager) (b : Bool) :
    (stop_session m b).state.live_session_active = false := by
  unfold stop_session
  split
  · rename_i hg
    exact hg.1
  · rfl

theorem stop_session_task_none (m : LiveSessionManager) (b : Bool) :
    (stop_session m b).state.session_handler_task = none := by
  unfold stop_session
  split
  · rename_i hg
    exact hg.2
  · rfl

theorem stop_session_queue_none (m : LiveSessionManager) (b : Bool)
    (hinv : mgrInv m) : (stop_session m b).state.audio_queue = none := by
  unfold stop_session
  split
  · rename_i hg
    by_contra hq
    exact hinv.1 hq hg.2
  · rfl

theorem send_loop_front (a1 a2 : Nat → Bool) (chunks : List (List Nat))
    (i : Nat) :
    send_audio_chunks_loop a1 a2 i (chunks.map some ++ [none]) <+: chunks := by
  induction chunks generalizing i with
  | nil =>
    simp only [List.map_nil, List.nil_append, send_audio_chunks_loop]
    split <;> simp
  | cons c cs ih =>
    simp only [List.map_cons, List.cons_append, send_audio_chunks_loop,
      List.append_eq]
    split
    · exact List.nil_prefix
    · split
      · exact List.nil_prefix
      · obtain ⟨t, ht⟩ := ih (i + 1)
        exact ⟨t, by rw [List.cons_append, ht]⟩

theorem send_loop_all_active (a1 a2 : Nat → Bool) (h1 : ∀ j, a1 j = true)
    (h2 : ∀ j, a2 j = true) (chunks : List (List Nat)) (i : Nat) :
    send_audio_chunks_loop a1 a2 i (chunks.map some ++ [none]) = chunks := by
  induction chunks generalizing i with
  | nil => simp [send_audio_chunks_loop, h1 i]
  | cons c cs ih =>
    simp [send_audio_chunks_loop, h1 i, h2 i, ih (i + 1)]

theorem send_loop_stops_at_sentinel (a1 a2 : Nat → Bool)
    (chunks : List (List Nat)) (junk : List (Option (List Nat))) (i : Nat) :
    send_audio_chunks_loop a1 a2 i (chunks.map some ++ none :: junk) =
      send_audio_chunks_loop a1 a2 i (chunks.map some ++ [none]) := by
  induction chunks generalizing i with
  | nil => simp [send_audio_chunks_loop]
  | cons c cs ih =>
    simp only [List.map_cons, List.cons_append, send_audio_chunks_loop,
      List.append_eq]
    rw [ih (i + 1)]

/-- System state right after a successful `start_session` command from a
connected client. -/
def sysAfterStart : Sys :=
  { mgr := (start_session initManager true).state
    pendingStop := none
    inflightStops := [] }

/-- System state after the lifecycle task of `sysAfterStart` ends with a
sender-pump send failure: the pump cleared the active flag, the lifecycle
task object is finished, and `session_handler_task` still references it. -/
def sysAfterSenderError : Sys :=
  { mgr :=
      { (handle_session_lifecycle sysAfterStart.mgr
            (LifecycleOutcome.senderError "send failed")).state with
        session_handler_task := some TaskState.done }
    pendingStop := none
    inflightStops := [] }

theorem reachable_sysAfterStart : Reachable sysAfterStart :=
  Reachable.step Reachable.init (Step.startCmd initSys true)

theorem reachable_sysAfterSenderError : Reachable sysAfterSenderError :=
  Reachable.step reachable_sysAfterStart
    (Step.lifecycleEnd sysAfterStart (LifecycleOutcome.senderError "send failed") rfl)

/-- Stop/start race trace, stage 1: first session started (src/api.py
lines 53-57). -/
def traceS1 : Sys :=
  { mgr :=
      { live_session_active := true
        audio_queue := some { maxsize := 0, items := [] }
        session_handler_task := some TaskState.running
        websocket := some true }
    pendingStop := none
    inflightStops := [] }

/-- Stage 2: the upstream connect raised, so the lifecycle task ended,
spawning a cleanup `stop_session` with `notify_client=True` (line 137) and
clearing the active flag. -/
def traceS2 : Sys :=
  { mgr :=
      { live_session_active := false
        audio_queue := some { maxsize := 0, items := [] }
        session_handler_task := some TaskState.done
        websocket := some true }
    pendingStop := some true
    inflightStops := [] }

/-- Stage 3: the client's second `start_session` is processed before the
spawned stop runs: a fresh session (queue, running task) exists. -/
def traceS3 : Sys :=
  { mgr :=
      { live_session_active := true
        audio_queue := some { maxsize := 0, items := [] }
        session_handler_task := some TaskState.running
        websocket := some true }
    pendingStop := some true
    inflightStops := [] }

/-- Stage 4: the spawned stop runs: past the guard it clears the active
flag, enqueues the `None` sentinel, cancels the second session's task and
suspends at the `await` of line 308. -/
def traceS4 : Sys :=
  { mgr :=
      { live_session_active := false
        audio_queue := some { maxsize := 0, items := [none] }
        session_handler_task := some TaskState.running
        websocket := some true }
    pendingStop := none
    inflightStops := [true] }

/-- Stage 5: the cancelled second task finishes its `CancelledError` path
(active already false, so its finally block spawns nothing). -/
def traceS5 : Sys :=
  { mgr :=
      { live_session_active := false
        audio_queue := some { maxsize := 0, items := [none] }
        session_handler_task := some TaskState.done
        websocket := some true }
    pendingStop := none
    inflightStops := [true] }

/-- Stage 6: the client's third `start_session` is processed while the stop
is still suspended: a third session is fully set up and active. -/
def traceS6 : Sys :=
  { mgr :=
      { live_session_active := true
        audio_queue := some { maxsize := 0, items := [] }
        session_handler_task := some TaskState.running
        websocket := some true }
    pendingStop := none
    inflightStops := [true] }

/-- The state the suspended stop leaves behind when it resumes: lines
316-317 null the THIRD session's `audio_queue` and `session_handler_task`
while `live_session_active` remains true — active session, no handles. -/
def bugSys : Sys :=
  { mgr :=
      { live_session_active := true
        audio_queue := none
        session_handler_task := none
        websocket := some true }
    pendingStop := none
    inflightStops := [] }

theorem reachable_bugSys : Reachable bugSys := by
  have h1 : Reachable traceS1 :=
    Reachable.step Reachable.init (Step.startCmd initSys true)
  have h2 : Reachable traceS2 :=
    Reachable.step h1
      (Step.lifecycleEnd traceS1 (LifecycleOutcome.connectError "connect failed") rfl)
  have h3 : Reachable traceS3 :=
    Reachable.step h2 (Step.startCmd traceS2 true)
  have h4 : Reachable traceS4 :=
    Reachable.step h3 (Step.pendingStopBegin traceS3 true rfl rfl)
  have h5 : Reachable traceS5 :=
    Reachable.step h4 (Step.lifecycleEnd traceS4 LifecycleOutcome.cancelled rfl)
  have h6 : Reachable traceS6 :=
    Reachable.step h5 (Step.startCmd traceS5 true)
  exact Reachable.step h6
    (Step.stopResume traceS6 true (List.mem_singleton.mpr rfl))

/-- Manager with a bound, connected websocket but no session (the state in
which the endpoint discards inbound audio, src/api.py lines 373-374). -/
def idleConnectedManager : LiveSessionManager :=
  { live_session_active := false
    audio_queue := none
    session_handler_task := none
    websocket := some true }

/-- C1: for every termination of the session lifecycle procedure — the
upstream connect failing, cancellation, a pump raising, or a pump exiting
without raising — the session's `live_session_active` flag is false once
`_handle_session_lifecycle` has finished; no error or exit path leaves the
session with the active flag set. -/
theorem C1_lifecycle_always_deactivates (m : LiveSessionManager)
    (out : LifecycleOutcome) :
    (handle_session_lifecycle m out).state.live_session_active = false :=
  handle_session_lifecycle_state_inactive m out

/-- C2 counterexample: a stop event of an active session with the transport
still connected for which the client receives ZERO terminal status frames,
contradicting the claim that every such stop event yields exactly one: when
a pump exits without raising, lines 97-101 of src/api.py clear the active
flag, so the finally block spawns no `stop_session` and no error or stopped
frame is ever written. -/
theorem C2_counterexample :
    activeManager.live_session_active = true ∧
    activeManager.websocket = some true ∧
    terminalCount
      (stopEventFrames activeManager
        (StopTrigger.upstream LifecycleOutcome.pumpExitNormal)) = 0 := by
  decide

/-- C2 amended: for a stop event of an active session whose transport stays
connected, the number of terminal status frames the client receives depends
on the trigger: exactly one for an explicit stop command, a sender-pump
failure, or a cancellation of the lifecycle task; two for an upstream
connect failure or a receiver-pump failure; and zero when a pump exits
without raising. -/
theorem C2_amended_terminal_frame_counts (m : LiveSessionManager)
    (hA : m.live_session_active = true) (hW : m.websocket = some true) :
    terminalCount (stopEventFrames m StopTrigger.clientStop) = 1 ∧
    (∀ msg, terminalCount
      (stopEventFrames m (StopTrigger.upstream (LifecycleOutcome.senderError msg))) = 1) ∧
    terminalCount
      (stopEventFrames m (StopTrigger.upstream LifecycleOutcome.cancelled)) = 1 ∧
    (∀ msg, terminalCount
      (stopEventFrames m (StopTrigger.upstream (LifecycleOutcome.connectError msg))) = 2) ∧
    (∀ msg, terminalCount
      (stopEventFrames m (StopTrigger.upstream (LifecycleOutcome.receiverError msg))) = 2) ∧
    terminalCount
      (stopEventFrames m (StopTrigger.upstream LifecycleOutcome.pumpExitNormal)) = 0 := by
  refine ⟨?_, fun msg => ?_, ?_, fun msg => ?_, fun msg => ?_, ?_⟩ <;>
    simp [stopEventFrames, handle_session_lifecycle, stop_session,
      send_audio_chunks_errorExit, receive_genai_data_errorExit,
      terminalCount, hA, hW, isTerminal_started, isTerminal_stopped,
      isTerminal_error]

theorem C2_amended_witness :
    terminalCount (stopEventFrames activeManager StopTrigger.clientStop) = 1 :=
  (C2_amended_terminal_frame_counts activeManager rfl rfl).1

/-- C3 (code-bug evidence): the spec's invariant `active == true iff
lifecycleHandle != null` is violated by the code in both directions at
reachable observable states, each fully outside the bodies of start and
stop.  Direction one: after the trace start, connect-error, start,
spawned-stop suspending at the `await` of src/api.py line 308, cancelled
task finishing, third start, stop resuming — lines 316-317 null the third
session's handles, leaving the quiescent state `bugSys` with
`live_session_active = true` and `session_handler_task = None`.  Direction
two: after a sender-pump failure ends the lifecycle, the flag is false
while the finished task handle remains recorded. -/
theorem C3_code_bug_evidence :
    (Reachable bugSys ∧ bugSys.mgr.live_session_active = true ∧
      bugSys.mgr.session_handler_task = none) ∧
    (Reachable sysAfterSenderError ∧
      sysAfterSenderError.mgr.live_session_active = false ∧
      sysAfterSenderError.mgr.session_handler_task ≠ none) :=
  ⟨⟨reachable_bugSys, rfl, rfl⟩,
    ⟨reachable_sysAfterSenderError, by decide, by decide⟩⟩

/-- C4: calling `start_session` while a session is already active is a
no-op: the manager state (active flag, audio queue, task handle, bound
websocket) is returned unchanged, no new queue or lifecycle task is
created, and the requester receives only an informational frame (when its
websocket is connected). -/
theorem C4_start_noop_when_active (m : LiveSessionManager) (c : Bool)
    (h : m.live_session_active = true) :
    (start_session m c).state = m ∧
    (start_session m c).frames =
      (if c then [Frame.info "Session already active."] else []) := by
  unfold start_session
  rw [if_pos h]
  exact ⟨rfl, rfl⟩

theorem C4_witness :
    (start_session activeManager true).state = activeManager ∧
    (start_session activeManager true).frames =
      (if true then [Frame.info "Session already active."] else []) :=
  C4_start_noop_when_active activeManager true rfl

/-- C5: `stop_session` is idempotent: called in the idle state (inactive,
no task handle) it returns the state unchanged with no transport writes;
after any completed `stop_session` on a reachable state both `audio_queue`
and `session_handler_task` are null; and a second `stop_session` right
after a first one is a no-op with no transport writes. -/
theorem C5_stop_idempotent (s : Sys) (h : Reachable s) (b b2 : Bool) :
    (s.mgr.live_session_active = false ∧ s.mgr.session_handler_task = none →
      stop_session s.mgr b =
        { state := s.mgr, frames := [], queueFullHit := false }) ∧
    (stop_session s.mgr b).state.audio_queue = none ∧
    (stop_session s.mgr b).state.session_handler_task = none ∧
    stop_session (stop_session s.mgr b).state b2 =
      { state := (stop_session s.mgr b).state, frames := [],
        queueFullHit := false } := by
  refine ⟨fun hg => stop_session_noop s.mgr b hg.1 hg.2,
    stop_session_queue_none s.mgr b (reachable_mgrInv h),
    stop_session_task_none s.mgr b,
    stop_session_noop _ b2 (stop_session_active_false s.mgr b)
      (stop_session_task_none s.mgr b)⟩

theorem C5_witness :
    stop_session initManager true =
      { state := initManager, frames := [], queueFullHit := false } :=
  (C5_stop_idempotent initSys Reachable.init true true).1 ⟨rfl, rfl⟩

/-- C6 counterexample: the claim that an upstream connect failure is
reported with a distinct "failed to start" message, distinguishable from
mid-session error messages, is false: the connect-failure path emits
exactly the frame `error "GenAI session error: boom"`, and a mid-session
sender-pump failure with the same exception text yields exactly the same
error frames, so the two paths are indistinguishable to the client. -/
theorem C6_counterexample :
    (handle_session_lifecycle activeManager
        (LifecycleOutcome.connectError "boom")).frames =
      [Frame.error "GenAI session error: boom"] ∧
    errorFrames
        (handle_session_lifecycle activeManager
          (LifecycleOutcome.connectError "boom")).frames =
      errorFrames
        (handle_session_lifecycle activeManager
          (LifecycleOutcome.senderError "boom")).frames := by
  decide

/-- C6 amended: if opening the upstream handle raises, no pump task is ever
started, the active flag returns to false, and the connected client
receives a single error frame — but its message is the generic
"GenAI session error: ..." text, the same format used for mid-session pump
failures, not a distinct "failed to start" message. -/
theorem C6_amended_connect_error (m : LiveSessionManager) (msg : String)
    (hA : m.live_session_active = true) (hW : m.websocket = some true) :
    (handle_session_lifecycle m (LifecycleOutcome.connectError msg)).pumpsStarted = false ∧
    (handle_session_lifecycle m (LifecycleOutcome.connectError msg)).state.live_session_active = false ∧
    (handle_session_lifecycle m (LifecycleOutcome.connectError msg)).frames =
      [Frame.error ("GenAI session error: " ++ msg)] ∧
    errorFrames (handle_session_lifecycle m (LifecycleOutcome.connectError msg)).frames =
      errorFrames (handle_session_lifecycle m (LifecycleOutcome.senderError msg)).frames := by
  refine ⟨?_, ?_, ?_, ?_⟩ <;>
    simp [handle_session_lifecycle, send_audio_chunks_errorExit,
      errorFrames, Frame.isError, hA, hW, isTerminal_started]

theorem C6_amended_witness :
    (handle_session_lifecycle activeManager
      (LifecycleOutcome.connectError "boom")).pumpsStarted = false :=
  (C6_amended_connect_error activeManager "boom" rfl rfl).1

/-- C7 counterexample: an inbound binary frame arriving while no session is
active is discarded by the endpoint with only a server-side log — the
connected client receives NO frame at all, contradicting the claim that it
receives a `warning` status frame. -/
theorem C7_counterexample :
    idleConnectedManager.websocket = some true ∧
    idleConnectedManager.live_session_active = false ∧
    websocket_endpoint_binary idleConnectedManager [1, 2, 3] =
      (idleConnectedManager, []) := by
  decide

/-- C7 amended: for every inbound binary frame, if a session is active and
its audio queue exists the chunk is appended to the queue with no frame
written; if no session is active the chunk is discarded with no client
notification (the warning is only logged server-side); and in the
reachable anomalous state where `live_session_active` is true but
`audio_queue` is `None` (left behind by a `stop_session` that raced an
interleaved `start_session`, see `bugSys`), the chunk is not enqueued and
the connected client DOES receive the warning frame through
`handle_audio_chunk`'s guard branch. -/
theorem C7_amended_binary_routing (m : LiveSessionManager)
    (chunk : List Nat) (q : GenQueue) :
    (m.live_session_active = true → m.audio_queue = some q →
      websocket_endpoint_binary m chunk =
        ({ m with audio_queue := some { q with items := q.items ++ [some chunk] } }, [])) ∧
    (m.live_session_active = false →
      websocket_endpoint_binary m chunk = (m, [])) ∧
    (m.live_session_active = true → m.audio_queue = none →
      websocket_endpoint_binary m chunk =
        (m,
          if m.websocket = some true then
            [Frame.warning "Session not active. Cannot process audio."]
          else [])) ∧
    (Reachable bugSys ∧ bugSys.mgr.live_session_active = true ∧
      bugSys.mgr.audio_queue = none) := by
  refine ⟨?_, ?_, ?_, reachable_bugSys, rfl, rfl⟩
  · intro hA hq
    simp [websocket_endpoint_binary, handle_audio_chunk, hA, hq]
  · intro hA
    simp [websocket_endpoint_binary, hA]
  · intro hA hq
    simp [websocket_endpoint_binary, handle_audio_chunk, hA, hq]

theorem C7_amended_witness :
    websocket_endpoint_binary bugSys.mgr [7] =
      (bugSys.mgr,
        if bugSys.mgr.websocket = some true then
          [Frame.warning "Session not active. Cannot process audio."]
        else []) :=
  (C7_amended_binary_routing bugSys.mgr [7] { maxsize := 0, items := [] }).2.2.1
    rfl rfl

/-- C8: for every audio-queue content of n chunks followed by the `None`
end-of-stream sentinel, the sender pump's dequeue loop terminates having
forwarded a prefix of those n chunks in order (at most n); when the active
flag stays set throughout, it forwards exactly the n chunks; and whatever
follows the sentinel in the queue is never dequeued. -/
theorem C8_sender_pump_sentinel (a1 a2 : Nat → Bool)
    (chunks : List (List Nat)) (junk : List (Option (List Nat))) :
    send_audio_chunks_loop a1 a2 0 (chunks.map some ++ [none]) <+: chunks ∧
    ((∀ j, a1 j = true) → (∀ j, a2 j = true) →
      send_audio_chunks_loop a1 a2 0 (chunks.map some ++ [none]) = chunks) ∧
    send_audio_chunks_loop a1 a2 0 (chunks.map some ++ none :: junk) =
      send_audio_chunks_loop a1 a2 0 (chunks.map some ++ [none]) :=
  ⟨send_loop_front a1 a2 chunks 0,
    fun h1 h2 => send_loop_all_active a1 a2 h1 h2 chunks 0,
    send_loop_stops_at_sentinel a1 a2 chunks junk 0⟩

theorem C8_witness :
    send_audio_chunks_loop (fun _ => true) (fun _ => true) 0
      ([[1], [2], [3]].map some ++ [none]) = [[1], [2], [3]] :=
  (C8_sender_pump_sentinel (fun _ => true) (fun _ => true) [[1], [2], [3]] []).2.1
    (fun _ => rfl) (fun _ => rfl)

/-- C9: a new client connection arriving while another websocket is bound
and connected receives one error status frame and is closed with the
policy-violation close code 1008, is not accepted as the bound transport,
and the manager state — active flag, queue, task handle and bound
websocket — is completely unchanged. -/
theorem C9_second_connection_rejected (m : LiveSessionManager)
    (h : m.websocket = some true) :
    websocket_endpoint_admission m =
      { state := m
        framesToNew := [Frame.error "A session is already active with another client."]
        closeCode := some 1008
        accepted := false } := by
  unfold websocket_endpoint_admission
  rw [if_pos h]

theorem C9_witness :
    websocket_endpoint_admission activeManager =
      { state := activeManager
        framesToNew := [Frame.error "A session is already active with another client."]
        closeCode := some 1008
        accepted := false } :=
  C9_second_connection_rejected activeManager rfl

/-- C10: every audio queue the manager holds in a reachable state is the
unbounded queue created by `start_session` (`maxsize = 0`), so the
`put_nowait(None)` in `stop_session` never raises `QueueFull`: the
`asyncio.QueueFull` handler branch is unreachable. -/
theorem C10_queuefull_unreachable (s : Sys) (h : Reachable s) (b : Bool) :
    (∀ q : GenQueue, s.mgr.audio_queue = some q → q.maxsize = 0) ∧
    (stop_session s.mgr b).queueFullHit = false := by
  have hinv := reachable_mgrInv h
  refine ⟨hinv.2, ?_⟩
  unfold stop_session
  split
  · rfl
  · cases hq : s.mgr.audio_queue with
    | none => simp [hq]
    | some q =>
      have hm : q.maxsize = 0 := hinv.2 q hq
      simp [hq, GenQueue.put_nowait, hm]

theorem C10_witness :
    (stop_session sysAfterStart.mgr true).queueFullHit = false :=
  (C10_queuefull_unreachable sysAfterStart reachable_sysAfterStart true).2
